import Mathlib

/-!
Verification development for the agents-project repository: a conversational
system collecting Patient Reported Outcomes through a companion / adaptive
questionnaire / trend-monitoring flow.  The data model and operations below are
embedded from the TypeScript sources (src/src/services/api.ts,
src/complete-frontend/src/pages/PatientChatPage.tsx, the type declarations and
the synthetic-data instructions).  Components of the documented core that ship
only as documentation in this repository (the Session Orchestrator, Trend and
Risk Engine, Emotion Classifier, Turn Processor) are modelled from the
specification; each such definition says so in its doc comment.
-/

namespace AgentsProject

/-- Phase of the session orchestrator state machine (spec section 4.5). -/
inductive Phase
  | INIT
  | COMPANION
  | QUESTIONNAIRE
  | ANALYSIS
  | COMPLETE
  | ABORTED
deriving DecidableEq

/-- Modelled from the spec: the Session Orchestrator of section 4.5 is not under
src/ (the repository ships only its frontend callers and the agent guides), so
its state machine is taken from the spec text: INIT auto-advances to COMPANION,
then QUESTIONNAIRE, then ANALYSIS, then COMPLETE, and the terminal ABORTED is
reachable from any non-terminal state on unrecoverable error (sessions are
immutable once COMPLETE or ABORTED, so neither terminal state steps again). -/
inductive PhaseStep : Phase → Phase → Prop
  | init_companion : PhaseStep Phase.INIT Phase.COMPANION
  | companion_questionnaire : PhaseStep Phase.COMPANION Phase.QUESTIONNAIRE
  | questionnaire_analysis : PhaseStep Phase.QUESTIONNAIRE Phase.ANALYSIS
  | analysis_complete : PhaseStep Phase.ANALYSIS Phase.COMPLETE
  | abort (p : Phase) : p ≠ Phase.COMPLETE → p ≠ Phase.ABORTED →
      PhaseStep p Phase.ABORTED

/-- Reversed sequences of phases visited by one session, most recent phase
first: a session starts in INIT and grows by orchestrator transitions. -/
inductive PhaseTrace : List Phase → Prop
  | init : PhaseTrace [Phase.INIT]
  | step {p q : Phase} {t : List Phase} :
      PhaseTrace (p :: t) → PhaseStep p q → PhaseTrace (q :: p :: t)

/-- The full happy-path phase sequence of the orchestrator. -/
def happyPath : List Phase :=
  [Phase.INIT, Phase.COMPANION, Phase.QUESTIONNAIRE, Phase.ANALYSIS, Phase.COMPLETE]

/-- Speaker of a chat message in the complete-frontend chat context (the sender
field of its messages: user or bot). -/
inductive Sender
  | user
  | bot
deriving DecidableEq

/-- One chat message of the complete-frontend ChatContext: sender and raw text.
The timestamp the page attaches comes from the wall clock and carries no
information used by any transition, so it is omitted from the embedding. -/
structure ChatMsg where
  sender : Sender
  text : String
deriving DecidableEq

/-- The fixed reply of the complete-frontend chat bot, from section 6 of the
synthetic test instructions: the bot gives this generic synthetic response. -/
def syntheticBotResponse : String :=
  "This is a synthetic response. (Replace with real API call.)"

/-- The opening prompt PatientChatPage emits on first load. -/
def openingPrompt : String := "How are you today?"

/-- State of PatientChatPage (complete-frontend): the chat transcript, whether
the questionnaire is shown, and the submitted questionnaire answers. -/
structure PageState where
  chat : List ChatMsg
  showQuestionnaire : Bool
  questionnaireAnswers : Option (List (String × String))
deriving DecidableEq

/-- Events of PatientChatPage: the two React effects (first-load prompt and the
questionnaire gate), a send click carrying the typed input, the asynchronous
arrival of the bot reply to a send, and a questionnaire submission. -/
inductive PageEvent
  | initEffect
  | questionnaireEffect
  | send (input : String)
  | botReply
  | submit (answers : List (String × String))

/-- Errors the patient chat could surface.  PatientChatPage declares no error
state and handleSend has no error path, so the error component of
handleSendResult below is always none. -/
inductive ChatInputError
  | validationError
deriving DecidableEq

/-- Whether a string trims to empty, that is consists solely of whitespace:
the test the falsy check on input.trim() performs in handleSend, stated over
the character list so that it computes by kernel evaluation. -/
def isBlank (s : String) : Bool := s.data.all Char.isWhitespace

/-- handleSend of PatientChatPage (lines 39 to 57): when the input trims to
empty it plainly returns, appending nothing and surfacing nothing; otherwise it
appends the user message to the chat.  The input box is rendered only while the
questionnaire is hidden (line 93), so no send happens once showQuestionnaire is
set.  The bot reply arrives later (PageEvent.botReply). -/
def handleSendResult (s : PageState) (input : String) :
    PageState × Option ChatInputError :=
  if s.showQuestionnaire then (s, none)
  else if isBlank input then (s, none)
  else ({ s with chat := s.chat ++ [⟨Sender.user, input⟩] }, none)

/-- One step of the PatientChatPage state machine, from the component source:
the first-load effect adds the opening prompt to an empty chat (lines 22 to 30);
the questionnaire effect shows the questionnaire exactly when the chat holds two
messages and the second is the user one (lines 33 to 37); send behaves as
handleSendResult; the bot reply is appended when the synthetic response arrives;
submit stores the answers and resets the chat (lines 59 to 66), and the
questionnaire component is rendered only while answers are unsubmitted
(line 114). -/
def pageStep (s : PageState) : PageEvent → PageState
  | PageEvent.initEffect =>
      if s.chat = [] then { s with chat := [⟨Sender.bot, openingPrompt⟩] } else s
  | PageEvent.questionnaireEffect =>
      if s.chat.length = 2 ∧ (s.chat.get? 1).map ChatMsg.sender = some Sender.user then
        { s with showQuestionnaire := true }
      else s
  | PageEvent.send input => (handleSendResult s input).1
  | PageEvent.botReply =>
      { s with chat := s.chat ++ [⟨Sender.bot, syntheticBotResponse⟩] }
  | PageEvent.submit answers =>
      if s.showQuestionnaire = true ∧ s.questionnaireAnswers = none then
        { s with questionnaireAnswers := some answers, chat := [] }
      else s

/-- The initial state of PatientChatPage: empty chat, questionnaire hidden, no
answers. -/
def pageInit : PageState := ⟨[], false, none⟩

/-- Run PatientChatPage over a sequence of events from the initial state. -/
def pageRun (evs : List PageEvent) : PageState := evs.foldl pageStep pageInit

/-- Modelled from the spec: the COMPANION gate of section 4.3 speaks of a
"non-greeting" utterance without fixing a greeting list; any reading of that
word counts the plain salutations below as greetings. -/
def greetingWords : List String :=
  ["hi", "hello", "hey", "good morning", "good evening"]

/-- Trim surrounding whitespace and lower-case a string, over the character
list so that it computes by kernel evaluation. -/
def lowerTrim (s : String) : String :=
  String.mk
    (((s.data.dropWhile Char.isWhitespace).reverse.dropWhile
        Char.isWhitespace).reverse.map Char.toLower)

/-- Whether an utterance is a bare greeting (after trimming and lowering). -/
def isGreeting (t : String) : Bool := greetingWords.contains (lowerTrim t)

/-- A substantive utterance in the sense of the claimed COMPANION gate: sent by
the patient, non-empty after trimming, and not a greeting. -/
def substantiveReceived (s : PageState) : Prop :=
  ∃ m ∈ s.chat, m.sender = Sender.user ∧ isBlank m.text = false ∧ isGreeting m.text = false

instance (s : PageState) : Decidable (substantiveReceived s) := by
  unfold substantiveReceived; infer_instance

/-- Invariant of PatientChatPage used for the questionnaire-gate proof: every
user message in the chat is non-blank, and once the questionnaire is shown but
not yet submitted the chat holds at least one user message. -/
def pageInv (s : PageState) : Prop :=
  (∀ m ∈ s.chat, m.sender = Sender.user → isBlank m.text = false) ∧
  (s.showQuestionnaire = true → s.questionnaireAnswers = none →
    ∃ m ∈ s.chat, m.sender = Sender.user)

/-- User record of the src data model (types/index.ts). -/
structure User where
  id : String
  name : String
  dateOfBirth : String
  email : Option String := none
  avatar : Option String := none
deriving DecidableEq

/-- Patient record of the src data model (types/index.ts): identity plus
demographic and health attributes (enumerated string unions kept as strings). -/
structure Patient where
  id : String
  name : String
  dateOfBirth : String
  email : Option String := none
  avatar : Option String := none
  age : Int
  gender : String
  location : String
  height : String
  weight : String
  bmi : ℚ
  bloodType : String
  activityLevel : String
  dietaryPreferences : String
  sleepHours : String
  stressLevel : String
  allergies : List String
  chronicConditions : List String
  medications : List String
deriving DecidableEq

/-- Login form of the src data model: name and date of birth. -/
structure LoginForm where
  name : String
  dateOfBirth : String
deriving DecidableEq

/-- Generic API response wrapper of the src data model. -/
structure ApiResponse (α : Type) where
  success : Bool
  data : Option α := none
  error : Option String := none
  message : Option String := none
deriving DecidableEq

/-- The stored mock users of src/src/services/api.ts (lines 22 to 29); login
never reads this list. -/
def mockUsers : List User :=
  [{ id := "1", name := "John Doe", dateOfBirth := "1990-05-15",
     avatar := some "https://images.unsplash.com/photo-1472099645785-5658abf4ff4e?w=150&h=150&fit=crop&crop=face" }]

/-- The single mock patient record of src/src/services/api.ts (lines 53 to 72),
the base of every logged-in patient. -/
def mockPatient : Patient where
  id := "1"
  name := "Sophia Carter"
  dateOfBirth := "1993-05-15"
  age := 30
  gender := "female"
  location := "San Francisco, CA"
  height := "5\x276\x22"
  weight := "135 lbs"
  bmi := 22.5
  bloodType := "O+"
  activityLevel := "moderate"
  dietaryPreferences := "Vegetarian"
  sleepHours := "7-8 hours"
  stressLevel := "low"
  allergies := []
  chronicConditions := []
  medications := []

/-- The fixed avatar URL ApiService.login attaches to every user it creates. -/
def loginAvatarUrl : String :=
  "https://lh3.googleusercontent.com/aida-public/AB6AXuCkrmbCLea9oQATBsDwX15rlQDA6AzaF1N0u-n9oqgStMt74PYek3tBQHd85TUXsB2U5RV6P7Cn7GIlRgwo4UNhkGE-HO_ThwagyDgoDWPr5zGkDDCICl4Lu8UwitfOi4Pl9RiTYaijDBMR-kvcPOqqpP_L8ol1tSb2Y4O13IyTCknPi6BUf_csBGtyRNegXtwIr_C0JwzZGVpnNecfMb3u4GNTfhhqbX3pi0MvO9vJZ4Nm5mZ63Wwcq_RtbJbzPhdZ_IH06umKcRoH"

/-- The module-level mutable authentication state of src/src/services/api.ts
(currentUser and currentPatient, both null before login). -/
structure AuthState where
  currentUser : Option User
  currentPatient : Option Patient
deriving DecidableEq

/-- The initial authentication state: both module variables are null. -/
def authInit : AuthState := ⟨none, none⟩

/-- ApiService.login (src/src/services/api.ts lines 176 to 207).  The simulated
network delay is dropped; the wall clock and the Date parse of the submitted
birth date enter as the parameters now and birthMillis, from which the code
computes age = floor((Date.now() - birthDate.getTime()) / (365.25*24*60*60*1000)).
The only check is that both submitted fields are truthy (non-empty strings): no
stored user is ever consulted, and the created user always gets id 1 while the
patient state is the mock patient overridden by the user fields. -/
def login (st : AuthState) (credentials : LoginForm) (now birthMillis : Int) :
    AuthState × ApiResponse User :=
  if credentials.name = "" ∨ credentials.dateOfBirth = "" then
    (st, { success := false, error := some "Name and date of birth are required" })
  else
    let age : Int := (now - birthMillis).fdiv 31557600000
    let user : User :=
      { id := "1", name := credentials.name, dateOfBirth := credentials.dateOfBirth,
        avatar := some loginAvatarUrl }
    ({ currentUser := some user,
       currentPatient := some
         { mockPatient with
             id := user.id, name := user.name, dateOfBirth := user.dateOfBirth,
             email := user.email, avatar := user.avatar, age := age } },
     { success := true, data := some user, message := some "Login successful" })

/-- Sender of a stored chat message in the src/src data model (user or ai). -/
inductive ApiSender
  | user
  | ai
deriving DecidableEq

/-- Chat message of the src/src data model: id, sender, content, timestamp in
epoch milliseconds, and message type (always text in this service); the field
named type in the source is msgType here. -/
structure ApiChatMessage where
  id : String
  sender : ApiSender
  content : String
  timestamp : Nat
  msgType : String
deriving DecidableEq

/-- Conversation status of the src/src data model. -/
inductive ConvStatus
  | active
  | completed
  | archived
deriving DecidableEq

/-- Conversation record of the src/src data model. -/
structure Conversation where
  id : String
  patientId : String
  messages : List ApiChatMessage
  summary : String
  status : ConvStatus
  updatedAt : Nat
deriving DecidableEq

/-- The eight canned replies of ApiService.generateAIResponse (lines 371 to
384 of src/src/services/api.ts). -/
def aiResponses : List String :=
  [ "I understand your concern. Let me help you explore this further.",
    "That\x27s important information. Can you tell me more about when this started?",
    "Thank you for sharing that. How does this affect your daily activities?",
    "I see. Have you noticed any patterns or triggers?",
    "That sounds challenging. What have you tried so far to manage this?",
    "I appreciate you bringing this up. Let\x27s work together to find solutions.",
    "This is valuable information. How would you rate the severity on a scale of 1-10?",
    "I\x27m here to support you. What would be most helpful for you right now?" ]

/-- ApiService.generateAIResponse: returns one of the canned replies at an
index drawn from Math.random (the draw enters as randomIndex); the user message
is ignored, exactly as in the source. -/
def generateAIResponse (randomIndex : Nat) (userMessage : String) : String :=
  aiResponses.getD (randomIndex % aiResponses.length) ""

/-- ApiService.sendMessage (lines 301 to 334) acting on the conversation it
found: it builds the user message from the clock, pushes it at the end and
returns success.  Neither the conversation status nor the content is checked.
The delayed AI reply push of the same method is aiFollowUp below. -/
def sendMessagePush (c : Conversation) (content : String) (now : Nat) :
    Conversation × ApiResponse ApiChatMessage :=
  let newMessage : ApiChatMessage :=
    { id := toString now, sender := ApiSender.user, content := content,
      timestamp := now, msgType := "text" }
  ({ c with messages := c.messages ++ [newMessage], updatedAt := now },
   { success := true, data := some newMessage })

/-- The delayed callback inside ApiService.sendMessage (lines 318 to 328):
pushes the AI reply, with id Date.now() + 1, at the end of the message list. -/
def aiFollowUp (c : Conversation) (replyText : String) (now : Nat) : Conversation :=
  { c with
      messages := c.messages ++
        [{ id := toString (now + 1), sender := ApiSender.ai, content := replyText,
           timestamp := now, msgType := "text" }],
      updatedAt := now }

/-- A conversation already marked completed, used to probe the absent phase
check of sendMessage. -/
def completedConv : Conversation :=
  { id := "1", patientId := "1",
    messages := [{ id := "0", sender := ApiSender.ai,
                   content := "Hello, how can I assist you today?",
                   timestamp := 0, msgType := "text" }],
    summary := "", status := ConvStatus.completed, updatedAt := 0 }

/-- The closed emotion label set of the spec (section 4.1). -/
inductive Emotion
  | calm
  | anxious
  | frustrated
  | sad
  | positive
  | neutral
deriving DecidableEq

/-- Modelled from the spec: the Emotion Classifier of section 4.1 is not under
src/ (the frontend types only declare an optional emotion plus confidence on
message metadata), so the best-effort keyword heuristic is modelled from the
spec contract.  Keyword families, scanned in order. -/
def emotionKeywordTable : List (Emotion × List String) :=
  [ (Emotion.anxious, ["anxious", "worried", "nervous", "scared", "afraid"]),
    (Emotion.frustrated, ["frustrated", "annoyed", "angry", "upset"]),
    (Emotion.sad, ["sad", "down", "depressed", "hopeless", "lonely"]),
    (Emotion.positive, ["great", "good", "happy", "better", "excellent"]),
    (Emotion.calm, ["calm", "fine", "okay", "relaxed"]) ]

/-- Accumulate the maximal runs of characters satisfying the predicate,
dropping the separators: the word splitter of the classifier, written with
structural recursion so that it computes by kernel evaluation. -/
def splitWordsAux (p : Char → Bool) : List Char → List Char → List (List Char)
  | [], acc => if acc = [] then [] else [acc.reverse]
  | c :: cs, acc =>
    if p c then splitWordsAux p cs (c :: acc)
    else if acc = [] then splitWordsAux p cs []
    else acc.reverse :: splitWordsAux p cs []

/-- Lower-cased alphabetic words of an utterance. -/
def utteranceWords (u : String) : List String :=
  (splitWordsAux Char.isAlpha (u.data.map Char.toLower) []).map fun w => String.mk w

/-- Modelled from the spec: classify(utterance) of section 4.1 returns a label
from the closed set with a confidence in the unit interval; a matched keyword
family gives its label with confidence 0.7, and degenerate or ambiguous text
(no keyword) gives neutral with confidence 0.4, which is at most 0.5, rather
than failing. -/
def classify (utterance : String) : Emotion × ℚ :=
  match emotionKeywordTable.find? (fun p => p.2.any fun k => (utteranceWords utterance).contains k) with
  | some p => (p.1, 7 / 10)
  | none => (Emotion.neutral, 2 / 5)

/-- The default maximum number of questions per session named by the claim
(configuration option maxQuestionsPerSession, default 5, spec section 6). -/
def maxQuestionsPerSession : Nat := 5

/-- One question of the shipped questionnaire (src/api/questionnaireApi.ts,
src/unnamed/part_002): id, text, answer kind (the field named type in the
source is qtype here: text or choice) and the options of a choice question. -/
structure CodeQuestion where
  id : String
  text : String
  qtype : String
  options : List String := []
deriving DecidableEq

/-- The questionnaire record of src/api/questionnaireApi.ts: id and ordered
question list. -/
structure Questionnaire where
  id : String
  questions : List CodeQuestion
deriving DecidableEq

/-- getQuestionnaire of src/api/questionnaireApi.ts (src/unnamed/part_002
lines 6 to 16): after a simulated delay it returns this fixed questionnaire —
three questions, static data; no session state, answer history or question
count is consulted, and there is no adaptive or cap logic of any kind. -/
def getQuestionnaire : Questionnaire :=
  { id := "q1",
    questions :=
      [ { id := "q1-1", text := "How many hours do you sleep per night?",
          qtype := "text" },
        { id := "q1-2", text := "Do you experience headaches?", qtype := "choice",
          options := ["Yes", "No"] },
        { id := "q1-3", text := "How would you rate your appetite?",
          qtype := "choice", options := ["Good", "Average", "Poor"] } ] }

/-- The question supply of the shipped flow as a function of the number of
responses the session has recorded so far — the dependence the claimed adapter
cap would need: PatientChatPage mounts the questionnaire component, which
fetches getQuestionnaire and renders all of its questions; the recorded count
never enters the fetch, so the supply is the constant question list of
getQuestionnaire. -/
def servedQuestions (recordedSoFar : Nat) : List CodeQuestion :=
  getQuestionnaire.questions

/-- Modelled from the spec: the Questionnaire component
(src/components/Questionnaire) is not under src/; per the page wiring and the
summary page, which lists one answer per question id, it submits one answer
per rendered question, keyed by the question id. -/
def collectAnswers (q : Questionnaire) (give : String → String) :
    List (String × String) :=
  q.questions.map fun qu => (qu.id, give qu.id)

/-- saveQuestionnaireAnswers of src/api/questionnaireApi.ts (src/unnamed/
part_002 lines 18 to 21): after a simulated delay it does nothing — a no-op
for the synthetic build — so the persisted response store is returned
unchanged whatever is submitted. -/
def saveQuestionnaireAnswers
    (store : List (String × List (String × String)))
    (questionnaireId : String) (answers : List (String × String)) :
    List (String × List (String × String)) :=
  store

/-- Modelled from the spec: one tracked metric family of the Trend and Risk
Engine (section 4.4): name, configurable weight, whether larger values are
worse, the acute single-session jump threshold, and the per-session values,
oldest first with the current session last. -/
structure MetricSeries where
  name : String
  weight : ℚ
  higherIsWorse : Bool
  acuteJumpThreshold : ℚ
  values : List ℚ
deriving DecidableEq

/-- Clamp a rational to the unit interval. -/
def clamp01 (x : ℚ) : ℚ := max 0 (min 1 x)

/-- Arithmetic mean, zero on the empty list. -/
def listMean (xs : List ℚ) : ℚ := if xs = [] then 0 else xs.sum / xs.length

/-- Modelled from the spec: the short-window worsening amount of one metric:
mean of the last three sessions against the mean of the prior baseline, signed
so that positive means worsening; zero when there is no baseline (insufficient
data). -/
def worseningDelta (m : MetricSeries) : ℚ :=
  let recent := m.values.drop (m.values.length - 3)
  let base := m.values.take (m.values.length - 3)
  if base = [] then 0
  else if m.higherIsWorse then listMean recent - listMean base
  else listMean base - listMean recent

/-- Modelled from the spec: whether one metric shows an acute, large
single-session jump in the worsening direction (section 4.4). -/
def acuteJump (m : MetricSeries) : Bool :=
  match m.values.reverse with
  | last :: prev :: _ =>
      if m.higherIsWorse then decide (m.acuteJumpThreshold ≤ last - prev)
      else decide (m.acuteJumpThreshold ≤ prev - last)
  | _ => false

/-- Modelled from the spec: the named trend signals: one per metric family whose
short-window trend is worsening. -/
def trendSignals (metrics : List MetricSeries) : List String :=
  (metrics.filter fun m => decide (0 < worseningDelta m)).map
    (fun m => m.name ++ " worsening")

/-- Modelled from the spec: the aggregate risk score: weighted sum of the
per-metric worsening amounts, clamped to the unit interval. -/
def riskScore (metrics : List MetricSeries) : ℚ :=
  clamp01 ((metrics.map fun m => m.weight * max 0 (worseningDelta m)).sum)

/-- Modelled from the spec: the deterministic recommendation template mapped
from the triggered signals (no randomness). -/
def recommendationTemplate (signals : List String) (alert : Bool) : String :=
  if signals = [] then "No concerning trend; continue routine monitoring."
  else
    (if alert then "Alert: " else "Monitor: ") ++ String.intercalate "; " signals

/-- Modelled from the spec: the default alert threshold (riskAlertThreshold,
default 0.6, section 6). -/
def riskAlertThreshold : ℚ := 3 / 5

/-- Modelled from the spec: RiskAssessment output of the Trend and Risk Engine:
score in the unit interval, ordered named trend signals, alert flag and
recommendation text (section 3, section 4.4). -/
structure RiskAssessment where
  score : ℚ
  signals : List String
  alert : Bool
  recommendation : String

/-- Modelled from the spec: analyze of the Trend and Risk Engine (section 4.4),
which is not under src/.  The generative text backend enters only as the
function used to phrase the recommendation, with the deterministic template as
fallback; score, signals and alert flag are computed from the history alone,
and the alert fires at the threshold or on any acute jump. -/
def analyze (textBackend : String → Option String) (threshold : ℚ)
    (metrics : List MetricSeries) : RiskAssessment :=
  let signals := trendSignals metrics
  let score := riskScore metrics
  let alert := decide (threshold ≤ score) || metrics.any acuteJump
  let template := recommendationTemplate signals alert
  { score := score, signals := signals, alert := alert,
    recommendation := (textBackend template).getD template }

/-- Outcome of one call to the external AI capability interface (section 6):
text, or a timeout, or unavailability. -/
inductive AIOutcome
  | ok (text : String)
  | timeout
  | unavailable
deriving DecidableEq

/-- Modelled from the spec: the per-turn session state the Turn Processor
updates: phase, turn counter, emotional-state history and the readiness flag of
the COMPANION gate (section 3, section 4.3). -/
structure SessionState where
  phase : Phase
  turnCounter : Nat
  emotionHistory : List (Emotion × ℚ)
  readyToProceed : Bool

/-- Modelled from the spec: the deterministic templated reply the Turn
Processor falls back to (section 4.3); the shipped frontend uses the fixed
synthetic response of the test instructions for the companion chat. -/
def templatedReply (p : Phase) : String :=
  match p with
  | Phase.COMPANION => syntheticBotResponse
  | _ => "Thank you. Let us continue."

/-- Modelled from the spec: process of the Turn Processor (section 4.3), which
is not under src/.  It classifies the emotion, advances the session state, and
phrases the reply with the AI capability when available, falling back to the
deterministic template on timeout or unavailability; the state update never
looks at the AI outcome. -/
def processTurn (ai : AIOutcome) (s : SessionState) (utterance : String) :
    SessionState × String :=
  let e := classify utterance
  let ready := s.readyToProceed || (!(isBlank utterance) && !(isGreeting utterance))
  let s2 : SessionState :=
    { s with turnCounter := s.turnCounter + 1,
             emotionHistory := s.emotionHistory ++ [e],
             readyToProceed := ready }
  let reply :=
    match ai with
    | AIOutcome.ok t => t
    | AIOutcome.timeout => templatedReply s.phase
    | AIOutcome.unavailable => templatedReply s.phase
  (s2, reply)

theorem phaseTrace_enum {t : List Phase} (h : PhaseTrace t) :
    t = [Phase.INIT] ∨
    t = [Phase.COMPANION, Phase.INIT] ∨
    t = [Phase.QUESTIONNAIRE, Phase.COMPANION, Phase.INIT] ∨
    t = [Phase.ANALYSIS, Phase.QUESTIONNAIRE, Phase.COMPANION, Phase.INIT] ∨
    t = [Phase.COMPLETE, Phase.ANALYSIS, Phase.QUESTIONNAIRE, Phase.COMPANION, Phase.INIT] ∨
    t = [Phase.ABORTED, Phase.INIT] ∨
    t = [Phase.ABORTED, Phase.COMPANION, Phase.INIT] ∨
    t = [Phase.ABORTED, Phase.QUESTIONNAIRE, Phase.COMPANION, Phase.INIT] ∨
    t = [Phase.ABORTED, Phase.ANALYSIS, Phase.QUESTIONNAIRE, Phase.COMPANION, Phase.INIT] := by
  induction h with
  | init => exact Or.inl rfl
  | @step p q t ht hs ih =>
    cases hs with
    | init_companion =>
      rcases ih with h | h | h | h | h | h | h | h | h <;> simp_all
    | companion_questionnaire =>
      rcases ih with h | h | h | h | h | h | h | h | h <;> simp_all
    | questionnaire_analysis =>
      rcases ih with h | h | h | h | h | h | h | h | h <;> simp_all
    | analysis_complete =>
      rcases ih with h | h | h | h | h | h | h | h | h <;> simp_all
    | abort _ hc ha =>
      rcases ih with h | h | h | h | h | h | h | h | h <;> simp_all

/-- C1: for every session, the visited phase sequence is monotonic: it is a
(possibly truncated) prefix of INIT, COMPANION, QUESTIONNAIRE, ANALYSIS,
COMPLETE, or such a truncated prefix followed by ABORTED; no phase is skipped
and no phase is re-entered (the visited list has no duplicates). -/
theorem phase_transitions_monotonic {t : List Phase} (h : PhaseTrace t) :
    (t.reverse <+: happyPath ∨
      (t.reverse.getLast? = some Phase.ABORTED ∧ t.reverse.dropLast <+: happyPath)) ∧
    t.Nodup := by
  rcases phaseTrace_enum h with h | h | h | h | h | h | h | h | h <;>
    subst h <;> exact ⟨by decide, by decide⟩

theorem phase_transitions_monotonic_witness :
    PhaseTrace [Phase.QUESTIONNAIRE, Phase.COMPANION, Phase.INIT] ∧
    (([Phase.QUESTIONNAIRE, Phase.COMPANION, Phase.INIT].reverse <+: happyPath ∨
      ([Phase.QUESTIONNAIRE, Phase.COMPANION, Phase.INIT].reverse.getLast? = some Phase.ABORTED ∧
        [Phase.QUESTIONNAIRE, Phase.COMPANION, Phase.INIT].reverse.dropLast <+: happyPath)) ∧
      [Phase.QUESTIONNAIRE, Phase.COMPANION, Phase.INIT].Nodup) :=
  ⟨PhaseTrace.step (PhaseTrace.step PhaseTrace.init PhaseStep.init_companion)
      PhaseStep.companion_questionnaire,
    phase_transitions_monotonic
      (PhaseTrace.step (PhaseTrace.step PhaseTrace.init PhaseStep.init_companion)
        PhaseStep.companion_questionnaire)⟩

theorem pageInv_step (s : PageState) (e : PageEvent) (h : pageInv s) :
    pageInv (pageStep s e) := by
  obtain ⟨hA, hB⟩ := h
  cases e with
  | initEffect =>
    simp only [pageStep]
    split
    · rename_i hc
      refine ⟨?_, ?_⟩
      · intro m hm hu
        simp only [List.mem_singleton] at hm
        subst hm
        simp at hu
      · intro hq ha
        rcases hB hq ha with ⟨m, hm, _⟩
        rw [hc] at hm
        cases hm
    · exact ⟨hA, hB⟩
  | questionnaireEffect =>
    simp only [pageStep]
    split
    · rename_i hc
      obtain ⟨hlen, hget⟩ := hc
      refine ⟨hA, ?_⟩
      intro _ ha
      cases hm : s.chat.get? 1 with
      | none => rw [hm] at hget; simp at hget
      | some m =>
        rw [hm] at hget
        simp only [Option.map_some'] at hget
        exact ⟨m, List.get?_mem hm, Option.some.inj hget⟩
    · exact ⟨hA, hB⟩
  | send input =>
    simp only [pageStep, handleSendResult]
    split
    · exact ⟨hA, hB⟩
    · split
      · exact ⟨hA, hB⟩
      · rename_i hq ht
        refine ⟨?_, ?_⟩
        · intro m hm hu
          rcases List.mem_append.1 hm with hm | hm
          · exact hA m hm hu
          · simp only [List.mem_singleton] at hm
            subst hm
            simpa using ht
        · intro hq2 ha
          rcases hB hq2 ha with ⟨m, hm, hu⟩
          exact ⟨m, List.mem_append.2 (Or.inl hm), hu⟩
  | botReply =>
    refine ⟨?_, ?_⟩
    · intro m hm hu
      rcases List.mem_append.1 hm with hm | hm
      · exact hA m hm hu
      · simp only [List.mem_singleton] at hm
        subst hm
        simp at hu
    · intro hq ha
      rcases hB hq ha with ⟨m, hm, hu⟩
      exact ⟨m, List.mem_append.2 (Or.inl hm), hu⟩
  | submit answers =>
    simp only [pageStep]
    split
    · refine ⟨?_, ?_⟩
      · intro m hm
        cases hm
      · intro _ ha
        simp at ha
    · exact ⟨hA, hB⟩

theorem pageInv_run (evs : List PageEvent) : pageInv (pageRun evs) := by
  have base : pageInv pageInit := by
    constructor
    · intro m hm
      cases hm
    · intro hq
      simp [pageInit] at hq
  have main : ∀ (l : List PageEvent) (s : PageState), pageInv s →
      pageInv (List.foldl pageStep s l) := by
    intro l
    induction l with
    | nil => intro s hs; exact hs
    | cons e l ih => intro s hs; exact ih (pageStep s e) (pageInv_step s e hs)
  exact main evs pageInit base

/-- C3 as stated fails on the code: a bare greeting triggers the questionnaire
gate.  After the opening prompt, sending the greeting hi shows the
questionnaire although no substantive (non-empty, non-greeting) utterance has
been received. -/
theorem companion_gate_greeting_cex :
    (pageRun [PageEvent.initEffect, PageEvent.send "hi",
        PageEvent.questionnaireEffect]).showQuestionnaire = true ∧
    ¬ substantiveReceived
        (pageRun [PageEvent.initEffect, PageEvent.send "hi",
          PageEvent.questionnaireEffect]) := by
  constructor
  · decide
  · decide

/-- C3 amended: the questionnaire effect shows the questionnaire exactly when
the chat holds two messages with the second from the user (or it was already
shown); since handleSend drops blank input, whenever the questionnaire is shown
and not yet submitted, at least one non-empty user utterance has been received
— but greetings are not excluded: the sole gate is the first non-empty user
message. -/
theorem questionnaire_gate_amended :
    (∀ s : PageState,
        (pageStep s PageEvent.questionnaireEffect).showQuestionnaire = true ↔
          (s.showQuestionnaire = true ∨
            (s.chat.length = 2 ∧
              (s.chat.get? 1).map ChatMsg.sender = some Sender.user))) ∧
    (∀ evs : List PageEvent,
        (pageRun evs).showQuestionnaire = true →
        (pageRun evs).questionnaireAnswers = none →
        ∃ m ∈ (pageRun evs).chat, m.sender = Sender.user ∧ isBlank m.text = false) := by
  constructor
  · intro s
    simp only [pageStep]
    split
    · rename_i hc
      constructor
      · intro _
        exact Or.inr hc
      · intro _
        rfl
    · rename_i hc
      constructor
      · intro h
        exact Or.inl h
      · intro h
        rcases h with h | h
        · exact h
        · exact absurd h hc
  · intro evs hq ha
    obtain ⟨hA, hB⟩ := pageInv_run evs
    rcases hB hq ha with ⟨m, hm, hu⟩
    exact ⟨m, hm, hu, hA m hm hu⟩

theorem questionnaire_gate_amended_witness :
    (pageRun [PageEvent.initEffect, PageEvent.send "ok",
        PageEvent.questionnaireEffect]).showQuestionnaire = true ∧
    (pageRun [PageEvent.initEffect, PageEvent.send "ok",
        PageEvent.questionnaireEffect]).questionnaireAnswers = none ∧
    ∃ m ∈ (pageRun [PageEvent.initEffect, PageEvent.send "ok",
        PageEvent.questionnaireEffect]).chat,
      m.sender = Sender.user ∧ isBlank m.text = false :=
  ⟨by decide, by decide,
    questionnaire_gate_amended.2
      [PageEvent.initEffect, PageEvent.send "ok", PageEvent.questionnaireEffect]
      (by decide) (by decide)⟩

/-- C4 as stated fails on the service: a message submitted to a completed
conversation is accepted with success (no StateError is produced) and the
conversation record is modified. -/
theorem completed_session_rejection_cex :
    completedConv.status = ConvStatus.completed ∧
    (sendMessagePush completedConv "hello" 5).2.success = true ∧
    (sendMessagePush completedConv "hello" 5).2.error = none ∧
    (sendMessagePush completedConv "hello" 5).1.messages ≠ completedConv.messages := by
  refine ⟨rfl, rfl, rfl, ?_⟩
  decide

/-- C4 amended: the service applies no completion check: sendMessage succeeds
and appends the message for every conversation whatever its status, and no
StateError exists; the only post-questionnaire guard is in the page, which
removes the input, so a send event there leaves the state unchanged. -/
theorem completed_session_amended :
    (∀ (c : Conversation) (content : String) (now : Nat),
        (sendMessagePush c content now).2.success = true ∧
        (sendMessagePush c content now).2.error = none ∧
        (sendMessagePush c content now).1.messages =
          c.messages ++ [{ id := toString now, sender := ApiSender.user,
                           content := content, timestamp := now, msgType := "text" }]) ∧
    (∀ (s : PageState) (input : String), s.showQuestionnaire = true →
        pageStep s (PageEvent.send input) = s) := by
  constructor
  · intro c content now
    exact ⟨rfl, rfl, rfl⟩
  · intro s input h
    simp [pageStep, handleSendResult, h]

theorem completed_session_amended_witness :
    (⟨[], true, none⟩ : PageState).showQuestionnaire = true ∧
    pageStep ⟨[], true, none⟩ (PageEvent.send "x") = ⟨[], true, none⟩ :=
  ⟨rfl, completed_session_amended.2 ⟨[], true, none⟩ "x" rfl⟩

/-- C5 as stated fails on the shipped code: there is no adapter cap — with the
default maximum question count (five) already reached, the question supply
still serves the full static three-question list of getQuestionnaire rather
than none, and the supply does not depend on the recorded count at all. -/
theorem adapter_cap_cex :
    servedQuestions maxQuestionsPerSession = getQuestionnaire.questions ∧
    servedQuestions maxQuestionsPerSession ≠ [] ∧
    (servedQuestions maxQuestionsPerSession).length = 3 ∧
    servedQuestions 0 = servedQuestions maxQuestionsPerSession := by
  refine ⟨rfl, ?_, rfl, rfl⟩
  decide

/-- C5 amended: the shipped flow records at most the answers to the static
three-question questionnaire, so a session's PROResponses stay within the
default maximum of five — but not through an adapter: getQuestionnaire always
returns the same three questions whatever the session recorded (no cap, no
none signal), the component submits one answer per question and only once per
session (a second submit is a no-op), and saveQuestionnaireAnswers persists
nothing at all. -/
theorem pro_responses_bounded_static :
    getQuestionnaire.questions.length ≤ maxQuestionsPerSession ∧
    (∀ give : String → String,
        (collectAnswers getQuestionnaire give).length ≤ maxQuestionsPerSession) ∧
    (∀ (store : List (String × List (String × String))) (qid : String)
        (answers : List (String × String)),
        saveQuestionnaireAnswers store qid answers = store) ∧
    (∀ (s : PageState) (a : List (String × String)),
        s.questionnaireAnswers ≠ none → pageStep s (PageEvent.submit a) = s) := by
  refine ⟨by decide, ?_, fun store qid answers => rfl, ?_⟩
  · intro give
    simp [collectAnswers, getQuestionnaire, maxQuestionsPerSession]
  · intro s a h
    simp only [pageStep]
    rw [if_neg]
    rintro ⟨-, hnone⟩
    exact h hnone

theorem pro_responses_bounded_static_witness :
    ((⟨[], true, some []⟩ : PageState).questionnaireAnswers ≠ none) ∧
    pageStep ⟨[], true, some []⟩ (PageEvent.submit [("q1-1", "8")]) =
      ⟨[], true, some []⟩ :=
  ⟨by decide,
    pro_responses_bounded_static.2.2.2 ⟨[], true, some []⟩ [("q1-1", "8")]
      (by decide)⟩

/-- C6 as stated fails on the chat page: submitting empty input mutates nothing
but also surfaces nothing — handleSend plainly returns, producing no
ValidationError; only the login path surfaces an explicit error. -/
theorem empty_input_silent_cex :
    (handleSendResult pageInit "").2 ≠ some ChatInputError.validationError ∧
    (handleSendResult pageInit "").1 = pageInit := by
  constructor
  · decide
  · decide

/-- C6 amended: empty or blank chat input is silently ignored: the session
state is unchanged and no error is surfaced; empty login credentials fail with
the explicit required-fields error and leave the authentication state
unchanged. -/
theorem empty_input_amended :
    (∀ (s : PageState) (input : String), isBlank input = true →
        handleSendResult s input = (s, none)) ∧
    (∀ (st : AuthState) (credentials : LoginForm) (now birthMillis : Int),
        credentials.name = "" ∨ credentials.dateOfBirth = "" →
        login st credentials now birthMillis =
          (st, { success := false, data := none,
                 error := some "Name and date of birth are required",
                 message := none })) := by
  constructor
  · intro s input h
    by_cases hq : s.showQuestionnaire <;> simp [handleSendResult, hq, h]
  · intro st credentials now birthMillis h
    simp only [login, if_pos h]

theorem empty_input_amended_witness :
    (isBlank "  " = true ∧ handleSendResult pageInit "  " = (pageInit, none)) ∧
    (((" " : String) = "" ∨ ("" : String) = "") ∧
      login authInit ⟨" ", ""⟩ 0 0 =
        (authInit, { success := false, data := none,
                     error := some "Name and date of birth are required",
                     message := none })) :=
  ⟨⟨by decide, empty_input_amended.1 pageInit "  " (by decide)⟩,
    ⟨Or.inr rfl, empty_input_amended.2 authInit ⟨" ", ""⟩ 0 0 (Or.inr rfl)⟩⟩

/-- C2: the risk analysis is deterministic and independent of the generative
text backend: for any two backends (hence for any two runs) on identical
history input, the RiskAssessment score, trend signals and alert flag
coincide; only the recommendation wording may consult the backend. -/
theorem risk_assessment_backend_independent (b1 b2 : String → Option String)
    (threshold : ℚ) (metrics : List MetricSeries) :
    (analyze b1 threshold metrics).score = (analyze b2 threshold metrics).score ∧
    (analyze b1 threshold metrics).signals = (analyze b2 threshold metrics).signals ∧
    (analyze b1 threshold metrics).alert = (analyze b2 threshold metrics).alert :=
  ⟨rfl, rfl, rfl⟩

/-- C7: an unavailable or timed-out AI capability never blocks the turn: the
Turn Processor returns the deterministic templated reply, and the session
state advances exactly as it would on AI success, whatever the AI outcome. -/
theorem ai_failure_preserves_state (ai1 ai2 : AIOutcome) (s : SessionState)
    (u : String) :
    (processTurn ai1 s u).1 = (processTurn ai2 s u).1 ∧
    (processTurn AIOutcome.timeout s u).2 = templatedReply s.phase ∧
    (processTurn AIOutcome.unavailable s u).2 = templatedReply s.phase :=
  ⟨rfl, rfl, rfl⟩

/-- C8: conversation turns are append-only: pushing the patient message and
pushing the delayed AI reply each extend the message list at the end, keeping
every earlier message and its contents (the old list is a prefix of the new
one); the page-level send likewise only ever appends to the chat. -/
theorem conversation_turns_append_only :
    (∀ (c : Conversation) (content : String) (now : Nat),
        (sendMessagePush c content now).1.messages =
          c.messages ++ [{ id := toString now, sender := ApiSender.user,
                           content := content, timestamp := now, msgType := "text" }] ∧
        c.messages <+: (sendMessagePush c content now).1.messages) ∧
    (∀ (c : Conversation) (replyText : String) (now : Nat),
        (aiFollowUp c replyText now).messages =
          c.messages ++ [{ id := toString (now + 1), sender := ApiSender.ai,
                           content := replyText, timestamp := now, msgType := "text" }] ∧
        c.messages <+: (aiFollowUp c replyText now).messages) ∧
    (∀ (s : PageState) (input : String),
        s.chat <+: (pageStep s (PageEvent.send input)).chat) := by
  refine ⟨fun c content now => ⟨rfl, ⟨_, rfl⟩⟩,
    fun c replyText now => ⟨rfl, ⟨_, rfl⟩⟩, ?_⟩
  intro s input
  simp only [pageStep, handleSendResult]
  split
  · exact ⟨[], by simp⟩
  · split
    · exact ⟨[], by simp⟩
    · exact ⟨_, rfl⟩

/-- C9: the emotion classifier is total on non-empty input: it returns a label
from the closed six-label set with confidence in the unit interval, and on
degenerate or ambiguous text (no emotion keyword) it returns neutral with
confidence at most one half rather than failing. -/
theorem classify_total_closed (u : String) (h : u ≠ "") :
    (classify u).1 ∈ [Emotion.calm, Emotion.anxious, Emotion.frustrated,
      Emotion.sad, Emotion.positive, Emotion.neutral] ∧
    0 ≤ (classify u).2 ∧ (classify u).2 ≤ 1 ∧
    (emotionKeywordTable.find?
        (fun p => p.2.any fun k => (utteranceWords u).contains k) = none →
      (classify u).1 = Emotion.neutral ∧ (classify u).2 ≤ 1 / 2) := by
  unfold classify
  cases hf : emotionKeywordTable.find?
      (fun p => p.2.any fun k => (utteranceWords u).contains k) with
  | none =>
    refine ⟨by decide, by norm_num, by norm_num, fun _ => ⟨rfl, by norm_num⟩⟩
  | some p =>
    refine ⟨?_, by norm_num, by norm_num, ?_⟩
    · cases hp : p.1 <;> decide
    · intro h0
      cases h0

theorem classify_total_closed_witness :
    ("hello" ≠ "") ∧
    ((classify "hello").1 ∈ [Emotion.calm, Emotion.anxious, Emotion.frustrated,
        Emotion.sad, Emotion.positive, Emotion.neutral] ∧
      0 ≤ (classify "hello").2 ∧ (classify "hello").2 ≤ 1 ∧
      (emotionKeywordTable.find?
          (fun p => p.2.any fun k => (utteranceWords "hello").contains k) = none →
        (classify "hello").1 = Emotion.neutral ∧ (classify "hello").2 ≤ 1 / 2)) :=
  ⟨by decide, classify_total_closed "hello" (by decide)⟩

/-- C10: login succeeds for every credentials record with non-empty name and
date of birth, consulting no stored user: it returns success with a user of id
1 carrying exactly the submitted name and date of birth, and binds the patient
state to the single mock patient record with id 1. -/
theorem login_accepts_any_credentials (st : AuthState) (credentials : LoginForm)
    (now birthMillis : Int) (hn : credentials.name ≠ "")
    (hd : credentials.dateOfBirth ≠ "") :
    (login st credentials now birthMillis).2.success = true ∧
    (login st credentials now birthMillis).2.data.map User.id = some "1" ∧
    (login st credentials now birthMillis).2.data.map User.name =
      some credentials.name ∧
    (login st credentials now birthMillis).2.data.map User.dateOfBirth =
      some credentials.dateOfBirth ∧
    (login st credentials now birthMillis).1.currentPatient.map Patient.id =
      some "1" ∧
    (login st credentials now birthMillis).1.currentPatient.map Patient.name =
      some credentials.name ∧
    (login st credentials now birthMillis).1.currentPatient.map Patient.location =
      some mockPatient.location := by
  have hcond : ¬ (credentials.name = "" ∨ credentials.dateOfBirth = "") := by
    rintro (h | h)
    · exact hn h
    · exact hd h
  simp [login, hcond]

theorem login_accepts_any_credentials_witness :
    (("Mallory" : String) ≠ "" ∧ ("2001-02-03" : String) ≠ "") ∧
    ((login authInit ⟨"Mallory", "2001-02-03"⟩ 0 0).2.success = true ∧
      (login authInit ⟨"Mallory", "2001-02-03"⟩ 0 0).2.data.map User.id = some "1" ∧
      (login authInit ⟨"Mallory", "2001-02-03"⟩ 0 0).2.data.map User.name =
        some (⟨"Mallory", "2001-02-03"⟩ : LoginForm).name ∧
      (login authInit ⟨"Mallory", "2001-02-03"⟩ 0 0).2.data.map User.dateOfBirth =
        some (⟨"Mallory", "2001-02-03"⟩ : LoginForm).dateOfBirth ∧
      (login authInit ⟨"Mallory", "2001-02-03"⟩ 0 0).1.currentPatient.map Patient.id =
        some "1" ∧
      (login authInit ⟨"Mallory", "2001-02-03"⟩ 0 0).1.currentPatient.map Patient.name =
        some (⟨"Mallory", "2001-02-03"⟩ : LoginForm).name ∧
      (login authInit ⟨"Mallory", "2001-02-03"⟩ 0 0).1.currentPatient.map
          Patient.location = some mockPatient.location) :=
  ⟨⟨by decide, by decide⟩,
    login_accepts_any_credentials authInit ⟨"Mallory", "2001-02-03"⟩ 0 0
      (by decide) (by decide)⟩

end AgentsProject
